import Mathlib

/-!
Verification of the dynamic-system-plot widget's numeric core.

The repository holds two near-duplicate React components:
* `src/dynamic-system-plot.tsx` — fixed 2×2 transition matrix `W`;
* `src/unnamed/part_000` — evolving transition matrix `W[i]` driven by a
  fixed 4×4 matrix `W_evolve`.

We embed the numeric collaborators (`handleNumericInput`, `safeParseFloat`)
and the recurrence engines (`calculateSystem` of each file) shallowly,
with real arithmetic modelled by `ℚ`.  Vectors and matrices are total
functions on `Fin`, matching the dense JS arrays.
-/

open BigOperators

abbrev Vec2 : Type := Fin 2 → ℚ
abbrev Mat2 : Type := Fin 2 → Fin 2 → ℚ
abbrev Vec4 : Type := Fin 4 → ℚ
abbrev Mat4 : Type := Fin 4 → Fin 4 → ℚ

/-- Decimal value of a character when it is a digit `0`-`9`. -/
def digitVal (c : Char) : Option ℕ :=
  if c.isDigit then some (c.toNat - 48) else none

/-- Split a character list into its leading run of decimal digits and the rest. -/
def takeDigits : List Char → List ℕ × List Char
  | [] => ([], [])
  | c :: rest =>
    match digitVal c with
    | some d =>
      let p := takeDigits rest
      (d :: p.1, p.2)
    | none => ([], c :: rest)

/-- Value of a digit list read most-significant first. -/
def digitsToNat (ds : List ℕ) : ℕ := ds.foldl (fun acc d => 10 * acc + d) 0

/-- Exponent part of a JS float literal: `e`/`E` has already been consumed;
an optional sign followed by digits.  When no digits follow, the exponent
part is not a valid continuation and contributes factor `10 ^ 0` (JS
`parseFloat` stops before the `e`). -/
def parseExponent (r : List Char) : ℤ :=
  let sp : Bool × List Char :=
    match r with
    | '-' :: t => (true, t)
    | '+' :: t => (false, t)
    | t => (false, t)
  let dp := takeDigits sp.2
  if dp.1 = [] then 0
  else if sp.1 then -(digitsToNat dp.1 : ℤ) else (digitsToNat dp.1 : ℤ)

/-- Model of the JavaScript builtin `parseFloat` (ECMA-262 `parseFloat`):
skip leading whitespace, then read the longest prefix of the form
`[+|-] digits [. digits] [e|E [+|-] digits]` (at least one mantissa digit
required) and return its exact rational value; `none` models `NaN`, returned
when no such prefix exists.  The `Infinity` literal production is not
modelled; no input considered here involves it.  `parseFloat` is a language
builtin, so this definition follows the standard, not repository code. -/
def jsParseFloat (s : String) : Option ℚ :=
  let chars := s.data.dropWhile (fun c => c.isWhitespace)
  let sp : Bool × List Char :=
    match chars with
    | '-' :: r => (true, r)
    | '+' :: r => (false, r)
    | r => (false, r)
  let ip := takeDigits sp.2
  let fp : List ℕ × List Char :=
    match ip.2 with
    | '.' :: r2 => takeDigits r2
    | _ => ([], ip.2)
  if ip.1 = [] ∧ fp.1 = [] then none
  else
    let e : ℤ :=
      match fp.2 with
      | 'e' :: r4 => parseExponent r4
      | 'E' :: r4 => parseExponent r4
      | _ => 0
    let mant : ℚ := (digitsToNat ip.1 : ℚ) + (digitsToNat fp.1 : ℚ) / 10 ^ fp.1.length
    let v : ℚ := mant * (10 : ℚ) ^ e
    some (if sp.1 then -v else v)

/-- Acceptance test of `handleNumericInput` (identical in both source files):
the callback fires iff the raw text is one of the four in-progress
placeholders or `!isNaN(parseFloat(value))`. -/
def handleNumericInputAccepts (value : String) : Bool :=
  value == "" || value == "-" || value == "." || value == "-." ||
    (jsParseFloat value).isSome

/-- Effect of `handleNumericInput` on the stored text: the callback stores
`value` when accepted, otherwise the previous text is kept unchanged. -/
def handleNumericInput (value stored : String) : String :=
  if handleNumericInputAccepts value then value else stored

/-- `safeParseFloat` from both source files: the four placeholders map to
`0`; otherwise `parseFloat`, substituting `0` when the parse is `NaN`. -/
def safeParseFloat (value : String) : ℚ :=
  if value == "" || value == "-" || value == "." || value == "-." then 0
  else
    match jsParseFloat value with
    | none => 0
    | some q => q

namespace FixedW

/-- Loop body of `calculateSystem` in `src/dynamic-system-plot.tsx`
(lines 78–86) acting on the state `(a[i-1], x[i-1])`:
`a[i][0] = w[0][0]*a_prev[0] + w[0][1]*a_prev[1]`,
`a[i][1] = w[1][0]*a_prev[0] + w[1][1]*a_prev[1]`,
`x[i] = a[i-1][0]*x[i-1] + a[i-1][1]`. -/
def stepOnce (w : Mat2) (s : Vec2 × ℚ) : Vec2 × ℚ :=
  (![w 0 0 * s.1 0 + w 0 1 * s.1 1,
     w 1 0 * s.1 0 + w 1 1 * s.1 1],
   s.1 0 * s.2 + s.1 1)

/-- State `(a[i], x[i])` after `i` iterations of the loop. -/
def traj (w : Mat2) (a0 : Vec2) (x0 : ℚ) : ℕ → Vec2 × ℚ
  | 0 => (a0, x0)
  | i + 1 => stepOnce w (traj w a0 x0 i)

/-- Output record of the fixed-W `calculateSystem`: the arrays `a` and `x`. -/
structure Result where
  a : List Vec2
  x : List ℚ
deriving DecidableEq

/-- `calculateSystem` of `src/dynamic-system-plot.tsx`: arrays of length
`steps+1`, entry `i` holding the state after `i` loop iterations. -/
def calculateSystem (a0 : Vec2) (x0 : ℚ) (w : Mat2) (steps : ℕ) : Result :=
  { a := (List.range (steps + 1)).map fun i => (traj w a0 x0 i).1
    x := (List.range (steps + 1)).map fun i => (traj w a0 x0 i).2 }

end FixedW

namespace DriftW

/-- `vectorMatrixMultiply` from `src/unnamed/part_000` (lines 98–108):
`result[j] = Σ_i v[i] * M[i][j]`. -/
def vectorMatrixMultiply {n m : ℕ} (v : Fin n → ℚ) (M : Fin n → Fin m → ℚ) :
    Fin m → ℚ :=
  fun j => ∑ i, v i * M i j

/-- `flattenMatrix` from `src/unnamed/part_000`: row-major flattening
`[w00, w01, w10, w11]`. -/
def flattenMatrix (M : Mat2) : Vec4 := ![M 0 0, M 0 1, M 1 0, M 1 1]

/-- `reshapeToMatrix` from `src/unnamed/part_000`: inverse of the
row-major flattening. -/
def reshapeToMatrix (v : Vec4) : Mat2 := ![![v 0, v 1], ![v 2, v 3]]

/-- Loop body of `calculateSystem` in `src/unnamed/part_000`
(lines 142–153) acting on the state `(w[i-1], a[i-1], x[i-1])`:
`w[i] = reshape (flatten w[i-1] · W_evolve)`,
`a[i] = a[i-1] · w[i-1]` (the pre-evolution matrix),
`x[i] = a[i-1][0]*x[i-1] + a[i-1][1]`. -/
def stepOnce (wEvolve : Mat4) (s : Mat2 × Vec2 × ℚ) : Mat2 × Vec2 × ℚ :=
  (reshapeToMatrix (vectorMatrixMultiply (flattenMatrix s.1) wEvolve),
   vectorMatrixMultiply s.2.1 s.1,
   s.2.1 0 * s.2.2 + s.2.1 1)

/-- State `(w[i], a[i], x[i])` after `i` iterations of the loop. -/
def traj (wEvolve : Mat4) (w0 : Mat2) (a0 : Vec2) (x0 : ℚ) :
    ℕ → Mat2 × Vec2 × ℚ
  | 0 => (w0, a0, x0)
  | i + 1 => stepOnce wEvolve (traj wEvolve w0 a0 x0 i)

/-- Output record of the evolving-W `calculateSystem`: arrays `a`, `x`, `w`. -/
structure Result where
  a : List Vec2
  x : List ℚ
  w : List Mat2
deriving DecidableEq

/-- `calculateSystem` of `src/unnamed/part_000`: arrays of length
`steps+1`, entry `i` holding the state after `i` loop iterations. -/
def calculateSystem (a0 : Vec2) (x0 : ℚ) (w0 : Mat2) (wEvolve : Mat4)
    (steps : ℕ) : Result :=
  { a := (List.range (steps + 1)).map fun i => (traj wEvolve w0 a0 x0 i).2.1
    x := (List.range (steps + 1)).map fun i => (traj wEvolve w0 a0 x0 i).2.2
    w := (List.range (steps + 1)).map fun i => (traj wEvolve w0 a0 x0 i).1 }

end DriftW

/-- The 4×4 identity matrix, as supplied to the evolving engine in the
no-drift scenario. -/
def identity4 : Mat4 :=
  ![![1, 0, 0, 0], ![0, 1, 0, 0], ![0, 0, 1, 0], ![0, 0, 0, 1]]

/-- Transpose of a 2×2 matrix. -/
def transpose2 (M : Mat2) : Mat2 := fun i j => M j i

/-! ### Helper lemmas -/

theorem FixedW.a_getElem? (a0 : Vec2) (x0 : ℚ) (w : Mat2) (steps i : ℕ)
    (h : i ≤ steps) :
    (FixedW.calculateSystem a0 x0 w steps).a[i]? =
      some ((FixedW.traj w a0 x0 i).1) := by
  rw [FixedW.calculateSystem, List.getElem?_map,
    List.getElem?_range (Nat.lt_succ_of_le h), Option.map_some']

theorem FixedW.x_getElem? (a0 : Vec2) (x0 : ℚ) (w : Mat2) (steps i : ℕ)
    (h : i ≤ steps) :
    (FixedW.calculateSystem a0 x0 w steps).x[i]? =
      some ((FixedW.traj w a0 x0 i).2) := by
  rw [FixedW.calculateSystem, List.getElem?_map,
    List.getElem?_range (Nat.lt_succ_of_le h), Option.map_some']

theorem DriftW.w_getElem? (a0 : Vec2) (x0 : ℚ) (w0 : Mat2) (wE : Mat4)
    (steps i : ℕ) (h : i ≤ steps) :
    (DriftW.calculateSystem a0 x0 w0 wE steps).w[i]? =
      some ((DriftW.traj wE w0 a0 x0 i).1) := by
  rw [DriftW.calculateSystem, List.getElem?_map,
    List.getElem?_range (Nat.lt_succ_of_le h), Option.map_some']

theorem DriftW.drift_a_getElem? (a0 : Vec2) (x0 : ℚ) (w0 : Mat2) (wE : Mat4)
    (steps i : ℕ) (h : i ≤ steps) :
    (DriftW.calculateSystem a0 x0 w0 wE steps).a[i]? =
      some ((DriftW.traj wE w0 a0 x0 i).2.1) := by
  rw [DriftW.calculateSystem, List.getElem?_map,
    List.getElem?_range (Nat.lt_succ_of_le h), Option.map_some']

theorem DriftW.drift_x_getElem? (a0 : Vec2) (x0 : ℚ) (w0 : Mat2) (wE : Mat4)
    (steps i : ℕ) (h : i ≤ steps) :
    (DriftW.calculateSystem a0 x0 w0 wE steps).x[i]? =
      some ((DriftW.traj wE w0 a0 x0 i).2.2) := by
  rw [DriftW.calculateSystem, List.getElem?_map,
    List.getElem?_range (Nat.lt_succ_of_le h), Option.map_some']

theorem DriftW.reshape_flatten (M : Mat2) :
    DriftW.reshapeToMatrix (DriftW.flattenMatrix M) = M := by
  funext i j
  fin_cases i <;> fin_cases j <;> rfl

theorem DriftW.flatten_reshape (v : Vec4) :
    DriftW.flattenMatrix (DriftW.reshapeToMatrix v) = v := by
  funext i
  fin_cases i <;> rfl

theorem identity4_apply (k j : Fin 4) :
    identity4 k j = if k = j then 1 else 0 := by
  fin_cases k <;> fin_cases j <;> rfl

theorem DriftW.vmm_identity4 (v : Vec4) :
    DriftW.vectorMatrixMultiply v identity4 = v := by
  funext j
  show (∑ i, v i * identity4 i j) = v j
  simp [identity4_apply, mul_ite, mul_one, mul_zero]

/-- With the identity evolution matrix, the evolving trajectory keeps `w0`
and its `(a, x)` part coincides with the fixed-W trajectory driven by the
transpose of `w0` (the two loops multiply on opposite sides). -/
theorem DriftW.traj_identity4 (w0 : Mat2) (a0 : Vec2) (x0 : ℚ) (i : ℕ) :
    DriftW.traj identity4 w0 a0 x0 i =
      (w0, (FixedW.traj (transpose2 w0) a0 x0 i).1,
        (FixedW.traj (transpose2 w0) a0 x0 i).2) := by
  induction i with
  | zero => rfl
  | succ n ih =>
    rw [DriftW.traj, ih]
    show (DriftW.stepOnce identity4 _) = _
    rw [FixedW.traj]
    unfold DriftW.stepOnce FixedW.stepOnce
    refine Prod.ext ?_ (Prod.ext ?_ ?_)
    · show DriftW.reshapeToMatrix
        (DriftW.vectorMatrixMultiply (DriftW.flattenMatrix w0) identity4) = w0
      rw [DriftW.vmm_identity4, DriftW.reshape_flatten]
    · show DriftW.vectorMatrixMultiply _ w0 = _
      funext j
      fin_cases j <;>
        simp [DriftW.vectorMatrixMultiply, transpose2, Fin.sum_univ_two] <;>
        ring
    · rfl

/-- The `w` component of the evolving trajectory does not depend on `a0`
or `x0`. -/
theorem DriftW.traj_fst_independent (wE : Mat4) (w0 : Mat2)
    (a0 a0' : Vec2) (x0 x0' : ℚ) (i : ℕ) :
    (DriftW.traj wE w0 a0 x0 i).1 = (DriftW.traj wE w0 a0' x0' i).1 := by
  induction i with
  | zero => rfl
  | succ n ih => rw [DriftW.traj, DriftW.traj, DriftW.stepOnce, DriftW.stepOnce, ih]

/-! ### Claim theorems -/

/-- C5: for every input and every `steps ≥ 0`, the output sequences `a` and
`x` of both engines have exactly `steps + 1` entries, and the evolving
engine's `w` sequence also has exactly `steps + 1` entries. -/
theorem engine_output_lengths (a0 : Vec2) (x0 : ℚ) (w w0 : Mat2) (wE : Mat4)
    (steps : ℕ) :
    (FixedW.calculateSystem a0 x0 w steps).a.length = steps + 1 ∧
    (FixedW.calculateSystem a0 x0 w steps).x.length = steps + 1 ∧
    (DriftW.calculateSystem a0 x0 w0 wE steps).a.length = steps + 1 ∧
    (DriftW.calculateSystem a0 x0 w0 wE steps).x.length = steps + 1 ∧
    (DriftW.calculateSystem a0 x0 w0 wE steps).w.length = steps + 1 := by
  refine ⟨?_, ?_, ?_, ?_, ?_⟩ <;>
    simp [FixedW.calculateSystem, DriftW.calculateSystem]

/-- C6: the index-0 entries of the output sequences equal the given initial
values for every input: `a[0] = a0` and `x[0] = x0` in both engines, and
`W[0] = W0` in the evolving engine, regardless of `steps` and of the
matrices supplied. -/
theorem initial_values_preserved (a0 : Vec2) (x0 : ℚ) (w w0 : Mat2)
    (wE : Mat4) (steps : ℕ) :
    (FixedW.calculateSystem a0 x0 w steps).a[0]? = some a0 ∧
    (FixedW.calculateSystem a0 x0 w steps).x[0]? = some x0 ∧
    (DriftW.calculateSystem a0 x0 w0 wE steps).a[0]? = some a0 ∧
    (DriftW.calculateSystem a0 x0 w0 wE steps).x[0]? = some x0 ∧
    (DriftW.calculateSystem a0 x0 w0 wE steps).w[0]? = some w0 :=
  ⟨FixedW.a_getElem? a0 x0 w steps 0 (Nat.zero_le _),
   FixedW.x_getElem? a0 x0 w steps 0 (Nat.zero_le _),
   DriftW.drift_a_getElem? a0 x0 w0 wE steps 0 (Nat.zero_le _),
   DriftW.drift_x_getElem? a0 x0 w0 wE steps 0 (Nat.zero_le _),
   DriftW.w_getElem? a0 x0 w0 wE steps 0 (Nat.zero_le _)⟩

/-- C8: both engines are deterministic pure functions of their inputs: two
invocations with identical parameter sets produce identical output
records. -/
theorem engines_deterministic (a0 a0' : Vec2) (x0 x0' : ℚ)
    (w w' w0 w0' : Mat2) (wE wE' : Mat4) (steps steps' : ℕ)
    (ha : a0 = a0') (hx : x0 = x0') (hw : w = w') (hw0 : w0 = w0')
    (hwE : wE = wE') (hs : steps = steps') :
    FixedW.calculateSystem a0 x0 w steps =
      FixedW.calculateSystem a0' x0' w' steps' ∧
    DriftW.calculateSystem a0 x0 w0 wE steps =
      DriftW.calculateSystem a0' x0' w0' wE' steps' := by
  subst ha hx hw hw0 hwE hs
  exact ⟨rfl, rfl⟩

/-- C8 witness: the determinism theorem applied at a concrete parameter
set. -/
theorem engines_deterministic_witness :
    FixedW.calculateSystem ![1, 2] 3 ![![4, 5], ![6, 7]] 2 =
      FixedW.calculateSystem ![1, 2] 3 ![![4, 5], ![6, 7]] 2 ∧
    DriftW.calculateSystem ![1, 2] 3 ![![4, 5], ![6, 7]] identity4 2 =
      DriftW.calculateSystem ![1, 2] 3 ![![4, 5], ![6, 7]] identity4 2 :=
  engines_deterministic ![1, 2] ![1, 2] 3 3 ![![4, 5], ![6, 7]]
    ![![4, 5], ![6, 7]] ![![4, 5], ![6, 7]] ![![4, 5], ![6, 7]]
    identity4 identity4 2 2 rfl rfl rfl rfl rfl rfl

/-- C9: flatten and reshape are mutually inverse round trips on 2×2
matrices and 4-vectors. -/
theorem flatten_reshape_roundtrip :
    (∀ M : Mat2, DriftW.reshapeToMatrix (DriftW.flattenMatrix M) = M) ∧
    (∀ v : Vec4, DriftW.flattenMatrix (DriftW.reshapeToMatrix v) = v) :=
  ⟨DriftW.reshape_flatten, DriftW.flatten_reshape⟩

/-- C10: in the evolving engine the `w` sequence depends only on `W0`,
`Wevolve` and `steps`: changing `a0` and/or `x0` leaves the whole `w`
sequence unchanged. -/
theorem w_sequence_independent_of_a0_x0 (w0 : Mat2) (wE : Mat4) (steps : ℕ)
    (a0 a0' : Vec2) (x0 x0' : ℚ) :
    (DriftW.calculateSystem a0 x0 w0 wE steps).w =
      (DriftW.calculateSystem a0' x0' w0 wE steps).w := by
  show (List.range (steps + 1)).map _ = (List.range (steps + 1)).map _
  have h : (fun i => (DriftW.traj wE w0 a0 x0 i).1) =
      fun i => (DriftW.traj wE w0 a0' x0' i).1 :=
    funext fun i => DriftW.traj_fst_independent wE w0 a0 a0' x0 x0' i
  rw [h]

/-- C3: in the fixed-W engine, for every `a0`, `x0`, `W`, `steps` and every
`i` with `1 ≤ i ≤ steps`, `a[i]` is the standard 2×2-matrix-by-2-vector
product `W · a[i-1]` componentwise, and `x[i] = a[i-1][0]*x[i-1] + a[i-1][1]`
uses the previous step's coefficient vector. -/
theorem fixed_engine_recurrence (a0 : Vec2) (x0 : ℚ) (w : Mat2)
    (steps i : ℕ) (h1 : 1 ≤ i) (h2 : i ≤ steps) (ap : Vec2) (xp : ℚ)
    (hap : (FixedW.calculateSystem a0 x0 w steps).a[i - 1]? = some ap)
    (hxp : (FixedW.calculateSystem a0 x0 w steps).x[i - 1]? = some xp) :
    (FixedW.calculateSystem a0 x0 w steps).a[i]? =
      some ![w 0 0 * ap 0 + w 0 1 * ap 1, w 1 0 * ap 0 + w 1 1 * ap 1] ∧
    (FixedW.calculateSystem a0 x0 w steps).x[i]? =
      some (ap 0 * xp + ap 1) := by
  obtain ⟨j, rfl⟩ : ∃ j, i = j + 1 :=
    ⟨i - 1, (Nat.succ_pred_eq_of_pos h1).symm⟩
  have hj : j ≤ steps := Nat.le_of_succ_le h2
  rw [Nat.add_sub_cancel, FixedW.a_getElem? a0 x0 w steps j hj] at hap
  rw [Nat.add_sub_cancel, FixedW.x_getElem? a0 x0 w steps j hj] at hxp
  have hap' := Option.some.inj hap
  have hxp' := Option.some.inj hxp
  rw [FixedW.a_getElem? a0 x0 w steps (j + 1) h2,
    FixedW.x_getElem? a0 x0 w steps (j + 1) h2]
  exact ⟨by rw [← hap']; rfl, by rw [← hap', ← hxp']; rfl⟩

/-- C3 witness: the recurrence theorem applied at
`a0 = [1,2]`, `x0 = 3`, `W = [[5,6],[7,8]]`, `steps = 1`, `i = 1`. -/
theorem fixed_engine_recurrence_witness :
    (1 : ℕ) ≤ 1 ∧
    ((FixedW.calculateSystem ![1, 2] 3 ![![5, 6], ![7, 8]] 1).a[1]? =
        some ![5 * 1 + 6 * 2, 7 * 1 + 8 * 2] ∧
      (FixedW.calculateSystem ![1, 2] 3 ![![5, 6], ![7, 8]] 1).x[1]? =
        some (1 * 3 + 2)) :=
  ⟨le_refl 1, fixed_engine_recurrence ![1, 2] 3 ![![5, 6], ![7, 8]] 1 1
    (le_refl 1) (le_refl 1) ![1, 2] 3 rfl rfl⟩

/-- C4: in the evolving-W engine, for every `1 ≤ i ≤ steps`, `W[i]` is the
row-major flattening of `W[i-1]` multiplied as a row vector by `Wevolve`
and reshaped back to 2×2, `a[i][j] = Σ_k a[i-1][k] * W[i-1][k][j]` uses the
pre-evolution matrix `W[i-1]`, and `x[i] = a[i-1][0]*x[i-1] + a[i-1][1]`. -/
theorem drift_engine_recurrence (a0 : Vec2) (x0 : ℚ) (w0 : Mat2) (wE : Mat4)
    (steps i : ℕ) (h1 : 1 ≤ i) (h2 : i ≤ steps) (wp : Mat2) (ap : Vec2)
    (xp : ℚ)
    (hwp : (DriftW.calculateSystem a0 x0 w0 wE steps).w[i - 1]? = some wp)
    (hap : (DriftW.calculateSystem a0 x0 w0 wE steps).a[i - 1]? = some ap)
    (hxp : (DriftW.calculateSystem a0 x0 w0 wE steps).x[i - 1]? = some xp) :
    (DriftW.calculateSystem a0 x0 w0 wE steps).w[i]? =
      some (DriftW.reshapeToMatrix
        fun j => ∑ k, DriftW.flattenMatrix wp k * wE k j) ∧
    (DriftW.calculateSystem a0 x0 w0 wE steps).a[i]? =
      some (fun j => ∑ k, ap k * wp k j) ∧
    (DriftW.calculateSystem a0 x0 w0 wE steps).x[i]? =
      some (ap 0 * xp + ap 1) := by
  obtain ⟨j, rfl⟩ : ∃ j, i = j + 1 :=
    ⟨i - 1, (Nat.succ_pred_eq_of_pos h1).symm⟩
  have hj : j ≤ steps := Nat.le_of_succ_le h2
  rw [Nat.add_sub_cancel, DriftW.w_getElem? a0 x0 w0 wE steps j hj] at hwp
  rw [Nat.add_sub_cancel, DriftW.drift_a_getElem? a0 x0 w0 wE steps j hj] at hap
  rw [Nat.add_sub_cancel, DriftW.drift_x_getElem? a0 x0 w0 wE steps j hj] at hxp
  have hwp' := Option.some.inj hwp
  have hap' := Option.some.inj hap
  have hxp' := Option.some.inj hxp
  rw [DriftW.w_getElem? a0 x0 w0 wE steps (j + 1) h2,
    DriftW.drift_a_getElem? a0 x0 w0 wE steps (j + 1) h2,
    DriftW.drift_x_getElem? a0 x0 w0 wE steps (j + 1) h2]
  refine ⟨by rw [← hwp']; rfl, by rw [← hwp', ← hap']; rfl,
    by rw [← hap', ← hxp']; rfl⟩

/-- C4 witness: the evolving recurrence theorem applied at
`a0 = [1,2]`, `x0 = 3`, `W0 = [[5,6],[7,8]]`, `Wevolve` the 4×4 identity,
`steps = 1`, `i = 1`. -/
theorem drift_engine_recurrence_witness :
    (1 : ℕ) ≤ 1 ∧
    ((DriftW.calculateSystem ![1, 2] 3 ![![5, 6], ![7, 8]] identity4 1).w[1]? =
        some (DriftW.reshapeToMatrix
          fun j => ∑ k, DriftW.flattenMatrix ![![5, 6], ![7, 8]] k *
            identity4 k j) ∧
      (DriftW.calculateSystem ![1, 2] 3 ![![5, 6], ![7, 8]] identity4 1).a[1]? =
        some (fun j => ∑ k, (![1, 2] : Vec2) k * (![![5, 6], ![7, 8]] : Mat2) k j) ∧
      (DriftW.calculateSystem ![1, 2] 3 ![![5, 6], ![7, 8]] identity4 1).x[1]? =
        some (1 * 3 + 2)) :=
  ⟨le_refl 1, drift_engine_recurrence ![1, 2] 3 ![![5, 6], ![7, 8]] identity4
    1 1 (le_refl 1) (le_refl 1) ![![5, 6], ![7, 8]] ![1, 2] 3 rfl rfl rfl⟩

/-- C1 counterexample: with `Wevolve` the 4×4 identity, `a0 = [1,0]`,
`x0 = 0`, `W0 = [[0,1],[0,0]]` and `steps = 1`, the evolving engine's `a`
sequence differs from the fixed-W engine's on the same inputs (the evolving
loop computes `a·W`, the fixed loop `W·a`, and `W0` is not symmetric). -/
theorem evolving_identity_counterexample :
    (DriftW.calculateSystem ![1, 0] 0 ![![0, 1], ![0, 0]] identity4 1).a ≠
      (FixedW.calculateSystem ![1, 0] 0 ![![0, 1], ![0, 0]] 1).a := by
  intro h
  have h1 := congrArg (fun l => l[1]?) h
  simp only [] at h1
  rw [DriftW.drift_a_getElem? ![1, 0] 0 ![![0, 1], ![0, 0]] identity4 1 1 le_rfl,
    FixedW.a_getElem? ![1, 0] 0 ![![0, 1], ![0, 0]] 1 1 le_rfl] at h1
  have h2 := congrFun (Option.some.inj h1) 1
  simp [DriftW.traj, DriftW.stepOnce, DriftW.vectorMatrixMultiply,
    FixedW.traj, FixedW.stepOnce, Fin.sum_univ_two] at h2

/-- C1 (amended): with `Wevolve` the 4×4 identity matrix, the evolving
engine yields `W[i] = W0` at every index (no drift), and its `a` and `x`
sequences coincide with the fixed-W engine run on the transpose of `W0`;
they coincide with the fixed-W engine on `W0` itself only when `W0` is
symmetric, because the evolving loop multiplies `a·W` while the fixed loop
multiplies `W·a`. -/
theorem evolving_identity_amended (a0 : Vec2) (x0 : ℚ) (w0 : Mat2)
    (steps : ℕ) :
    (DriftW.calculateSystem a0 x0 w0 identity4 steps).w =
      List.replicate (steps + 1) w0 ∧
    (DriftW.calculateSystem a0 x0 w0 identity4 steps).a =
      (FixedW.calculateSystem a0 x0 (transpose2 w0) steps).a ∧
    (DriftW.calculateSystem a0 x0 w0 identity4 steps).x =
      (FixedW.calculateSystem a0 x0 (transpose2 w0) steps).x := by
  refine ⟨?_, ?_, ?_⟩
  · show (List.range (steps + 1)).map _ = _
    have h : (fun i => (DriftW.traj identity4 w0 a0 x0 i).1) =
        fun _ : ℕ => w0 :=
      funext fun i => by rw [DriftW.traj_identity4]
    rw [h, List.map_const', List.length_range]
  · show (List.range (steps + 1)).map _ = (List.range (steps + 1)).map _
    have h : (fun i => (DriftW.traj identity4 w0 a0 x0 i).2.1) =
        fun i => (FixedW.traj (transpose2 w0) a0 x0 i).1 :=
      funext fun i => by rw [DriftW.traj_identity4]
    rw [h]
  · show (List.range (steps + 1)).map _ = (List.range (steps + 1)).map _
    have h : (fun i => (DriftW.traj identity4 w0 a0 x0 i).2.2) =
        fun i => (FixedW.traj (transpose2 w0) a0 x0 i).2 :=
      funext fun i => by rw [DriftW.traj_identity4]
    rw [h]

/-- C2 counterexample: the input `"1.2.3"` is accepted by
`handleNumericInput` — the callback fires and the stored value changes —
because JavaScript `parseFloat` parses its longest numeric prefix `1.2`
rather than returning `NaN`. -/
theorem numeric_input_counterexample :
    handleNumericInput "1.2.3" "0.5" = "1.2.3" ∧ ("1.2.3" : String) ≠ "0.5" := by
  exact ⟨by decide, by decide⟩

/-- C2 (amended): `handleNumericInput` accepts exactly the four in-progress
placeholders and the strings whose longest numeric prefix parses under
`parseFloat`: `"-"`, `"."`, `"-."`, `""`, `"3.14"`, `"-2"` are accepted, and
so is `"1.2.3"` (prefix `1.2`), while `"abc"` and `"--1"` are rejected with
the stored value unchanged. -/
theorem numeric_input_amended :
    (∀ value : String, handleNumericInputAccepts value = true ↔
      (value = "" ∨ value = "-" ∨ value = "." ∨ value = "-." ∨
        (jsParseFloat value).isSome = true)) ∧
    handleNumericInput "-" "prev" = "-" ∧
    handleNumericInput "." "prev" = "." ∧
    handleNumericInput "-." "prev" = "-." ∧
    handleNumericInput "" "prev" = "" ∧
    handleNumericInput "3.14" "prev" = "3.14" ∧
    handleNumericInput "-2" "prev" = "-2" ∧
    handleNumericInput "1.2.3" "prev" = "1.2.3" ∧
    handleNumericInput "abc" "prev" = "prev" ∧
    handleNumericInput "--1" "prev" = "prev" := by
  refine ⟨fun value => ?_, by decide, by decide, by decide, by decide,
    by decide, by decide, by decide, by decide, by decide⟩
  simp [handleNumericInputAccepts, or_assoc]

/-- C7: `safeParseFloat` maps each of the four in-progress placeholders to
`0`, maps `"-0.5"` to `-0.5`, maps `"abc"` (and any string whose parse
fails) to `0`, and in all cases yields a number. -/
theorem safeParseFloat_spec :
    safeParseFloat "" = 0 ∧ safeParseFloat "-" = 0 ∧
    safeParseFloat "." = 0 ∧ safeParseFloat "-." = 0 ∧
    safeParseFloat "-0.5" = -(1 / 2) ∧ safeParseFloat "abc" = 0 ∧
    ∀ value : String, jsParseFloat value = none → safeParseFloat value = 0 := by
  refine ⟨by decide, by decide, by decide, by decide, ?_, by decide,
    fun value h => ?_⟩
  · have h : safeParseFloat "-0.5" =
        -(((digitsToNat [0] : ℚ) + (digitsToNat [5] : ℚ) /
          10 ^ ([5] : List ℕ).length) * (10 : ℚ) ^ (0 : ℤ)) := rfl
    rw [h]
    norm_num [digitsToNat]
  · rw [safeParseFloat]
    split
    · rfl
    · rw [h]

/-- C7 witness: a string with no parseable numeric prefix coerces to `0`,
via the last clause of the theorem. -/
theorem safeParseFloat_spec_witness : safeParseFloat "xyz" = 0 :=
  safeParseFloat_spec.2.2.2.2.2.2 "xyz" (by decide)
